import Mathlib

/-!
Shallow embedding of the mooveit-backend ride-dispatch core.

The definitions below are translated from the Go source:
  * models (`internal/models`): `RideRequest`, `DriverLocation`, `TripCompletion`
    and the ride-status string constants;
  * dispatch handlers: `RequestRide`, `CancelRide`, `GetRideStatus`,
    `UpdateRideStatus` (`internal/handlers/ride_requests.go`), `AcceptRide`,
    `RejectRide`, `DriverArrived`, `StartRide` (ride driver handlers file),
    `CompleteTrip`, `GetTripCompletion` (trip completion handlers file),
    `UpdateDriverLocation` (driver location handlers file);
  * the WebSocket hub (`Hub.BroadcastToUser`, `Hub.BroadcastToUserType`,
    `Hub.BroadcastToAll`, `Hub.SendDriverLocationUpdate`).

Conventions of the embedding:
  * Go `float64` fields are modelled as `ℚ`; ids (`uint`) as `Nat`;
    ride statuses as `String` (the source stores them as strings and the
    generic status update writes arbitrary strings).
  * The GORM-backed tables become lists of records inside `Db`; `db.Save`
    on a primary key becomes a map that replaces the records with that key;
    `db.First(...cond)` becomes `List.find?`.
  * gin's `ShouldBindJSON` with `binding:"required"` tags rejects zero
    values (0 for numbers, "" for strings); this is modelled as an explicit
    guard returning a 400 response before the handler body runs.
  * External collaborators (Redis mirror writes, FCM pushes, e-mail) are
    fire-and-forget in the source and carry no state read back by the
    dispatch logic, so they are not part of the state.
  * `AcceptRide` reads the ride and the driver-location record, checks the
    guards on the values read, and only then opens a transaction that saves
    both records without re-checking; this read/commit split is kept as two
    functions (`acceptRead` / `acceptCommit`) so that interleavings of
    concurrent accepts can be expressed.  `CancelRide` performs its two
    writes with two independent `db.Save` calls (no transaction), kept as
    `cancelSaveRide` / `cancelRestoreDriver`.
-/

namespace Mooveit

/-- Ride status constants from `internal/models` (ride model file). -/
def RideStatusPending : String := "pending"

def RideStatusAccepted : String := "accepted"

def RideStatusArrived : String := "arrived"

def RideStatusStarted : String := "started"

def RideStatusCompleted : String := "completed"

def RideStatusCancelled : String := "cancelled"

/-- `models.UserTypeClient`. -/
def UserTypeClient : String := "client"

/-- `models.UserTypeDriver`. -/
def UserTypeDriver : String := "driver"

/-- `models.RideRequest` (ride model file): one ride request row. -/
structure RideRequest where
  id : Nat
  clientID : Nat
  driverID : Option Nat
  pickupLat : ℚ
  pickupLng : ℚ
  pickupAddr : String
  destLat : ℚ
  destLng : ℚ
  destAddr : String
  status : String
  price : ℚ
  distance : ℚ
  duration : Int
deriving DecidableEq, Repr

/-- `models.DriverLocation`: one driver-presence row (unique per driver). -/
structure DriverLocation where
  driverID : Nat
  latitude : ℚ
  longitude : ℚ
  heading : ℚ
  isOnline : Bool
  isAvailable : Bool
deriving DecidableEq, Repr

/-- `models.TripCompletion`: immutable record of a finished ride's actuals. -/
structure TripCompletion where
  rideID : Nat
  driverID : Nat
  clientID : Nat
  actualFare : ℚ
  actualDistance : ℚ
  actualDuration : Int
  driverNotes : String
deriving DecidableEq, Repr

/-- The relational store backing the dispatch handlers. -/
structure Db where
  rides : List RideRequest
  driverLocations : List DriverLocation
  tripCompletions : List TripCompletion
  nextRideID : Nat
deriving DecidableEq, Repr

/-- The empty store; ride ids are assigned from 1 as by the ORM. -/
def initDb : Db := { rides := [], driverLocations := [], tripCompletions := [], nextRideID := 1 }

/-- HTTP response abstraction: the handlers answer `c.JSON(code, body)`;
success bodies are read back from the store, error bodies carry the
`error` message string. -/
inductive Resp where
  | ok (code : Nat)
  | err (code : Nat) (msg : String)
deriving DecidableEq, Repr

/-- `db.First(&rideRequest, rideID)`. -/
def findRide (db : Db) (rideID : Nat) : Option RideRequest :=
  db.rides.find? (fun r => r.id == rideID)

/-- `db.Where("driver_id = ?", driverID).First(&driverLocation)`. -/
def findDriverLocation (db : Db) (driverID : Nat) : Option DriverLocation :=
  db.driverLocations.find? (fun l => l.driverID == driverID)

/-- `db.Where("ride_id = ?", rideID).First(&completion)`. -/
def findTripCompletion (db : Db) (rideID : Nat) : Option TripCompletion :=
  db.tripCompletions.find? (fun t => t.rideID == rideID)

/-- `db.Save(&rideRequest)`: replace the row with the same primary key. -/
def saveRide (db : Db) (r : RideRequest) : Db :=
  { db with rides := db.rides.map (fun x => if x.id == r.id then r else x) }

/-- `db.Save(&driverLocation)`: replace the row keyed by `driver_id`. -/
def saveDriverLocation (db : Db) (l : DriverLocation) : Db :=
  { db with driverLocations :=
      db.driverLocations.map (fun x => if x.driverID == l.driverID then l else x) }

/-- Snapshot taken by `AcceptRide` before it opens its transaction: the ride
row and the driver-location row as read. -/
structure AcceptSnapshot where
  ride : RideRequest
  loc : DriverLocation
deriving DecidableEq, Repr

/-- Read/guard phase of `AcceptRide` (driver handlers file, lines 16-55):
role check, ride lookup, pending check, driver-location lookup,
availability check.  No write happens in this phase. -/
def acceptRead (db : Db) (driverID : Nat) (userType : String) (rideID : Nat) :
    Except Resp AcceptSnapshot :=
  if userType ≠ UserTypeDriver then .error (.err 403 "Only drivers can accept rides")
  else match findRide db rideID with
  | none => .error (.err 404 "Ride not found")
  | some ride =>
    if ride.status ≠ RideStatusPending then .error (.err 400 "Ride is no longer available")
    else match findDriverLocation db driverID with
    | none => .error (.err 400 "Driver location not found")
    | some loc =>
      if loc.isAvailable = false then .error (.err 400 "Driver is not available")
      else .ok { ride := ride, loc := loc }

/-- Transaction phase of `AcceptRide` (lines 57-86): saves the previously
read ride with `DriverID := &driverID, Status := accepted` and the
previously read location with `IsAvailable := false`.  The transaction does
not re-check the ride status. -/
def acceptCommit (db : Db) (driverID : Nat) (s : AcceptSnapshot) : Db :=
  let ride := { s.ride with driverID := some driverID, status := RideStatusAccepted }
  let loc := { s.loc with isAvailable := false }
  saveDriverLocation (saveRide db ride) loc

/-- `AcceptRide`, one request run to completion with no interference. -/
def acceptRide (db : Db) (driverID : Nat) (userType : String) (rideID : Nat) :
    Db × Resp :=
  match acceptRead db driverID userType rideID with
  | .error e => (db, e)
  | .ok s => (acceptCommit db driverID s, .ok 200)

/-- `RejectRide` (driver handlers file, lines 169-216).  The handler reads
only the caller's user type — it never reads the caller's id, so any
authenticated driver may reject any pending ride. -/
def rejectRide (db : Db) (userType : String) (rideID : Nat) : Db × Resp :=
  if userType ≠ UserTypeDriver then (db, .err 403 "Only drivers can reject rides")
  else match findRide db rideID with
  | none => (db, .err 404 "Ride not found")
  | some ride =>
    if ride.status ≠ RideStatusPending then (db, .err 400 "Ride is no longer available")
    else (saveRide db { ride with status := RideStatusCancelled }, .ok 200)

/-- `DriverArrived` (driver handlers file, lines 246-355). -/
def driverArrived (db : Db) (driverID : Nat) (userType : String) (rideID : Nat) :
    Db × Resp :=
  if userType ≠ UserTypeDriver then (db, .err 403 "Only drivers can mark arrival")
  else match findRide db rideID with
  | none => (db, .err 404 "Ride not found")
  | some ride =>
    if ride.driverID ≠ some driverID then (db, .err 403 "Unauthorized to update this ride")
    else if ride.status ≠ RideStatusAccepted then
      (db, .err 400 "Ride must be accepted before marking arrival")
    else (saveRide db { ride with status := RideStatusArrived }, .ok 200)

/-- `StartRide` (driver handlers file, lines 358-467). -/
def startRide (db : Db) (driverID : Nat) (userType : String) (rideID : Nat) :
    Db × Resp :=
  if userType ≠ UserTypeDriver then (db, .err 403 "Only drivers can start rides")
  else match findRide db rideID with
  | none => (db, .err 404 "Ride not found")
  | some ride =>
    if ride.driverID ≠ some driverID then (db, .err 403 "Unauthorized to start this ride")
    else if ride.status ≠ RideStatusAccepted ∧ ride.status ≠ RideStatusArrived then
      (db, .err 400 "Ride must be accepted before starting")
    else (saveRide db { ride with status := RideStatusStarted }, .ok 200)

/-- Go's `int(x)` conversion on a float truncates toward zero. -/
def truncRat (q : ℚ) : Int :=
  if q < 0 then -((-q).floor) else q.floor

/-- `utils.CalculateETA` (`pkg/utils/geospatial.go`): minutes to cover
`distanceKm` at `averageSpeedKmh`, minimum 1 minute. -/
def calculateETA (distanceKm averageSpeedKmh : ℚ) : Int :=
  let speed := if averageSpeedKmh ≤ 0 then (30 : ℚ) else averageSpeedKmh
  let etaMinutes := truncRat (distanceKm / speed * 60)
  if etaMinutes < 1 then 1 else etaMinutes

/-- `utils.CalculatePrice` (`pkg/utils/geospatial.go`): base fare 5 plus
distance fare. -/
def calculatePrice (distanceKm baseRatePerKm : ℚ) : ℚ :=
  let rate := if baseRatePerKm ≤ 0 then (2 : ℚ) else baseRatePerKm
  5 + distanceKm * rate

/-- JSON input of `CompleteTrip`: all three numeric fields carry
`binding:"required"` (gin rejects their zero values), `driverNotes` is
optional. -/
structure CompleteInput where
  actualFare : ℚ
  actualDistance : ℚ
  actualDuration : Int
  driverNotes : String
deriving DecidableEq, Repr

/-- `CompleteTrip` (trip completion handlers file, lines 526-717): role
check, input binding and non-negativity checks, ride lookup, bound-driver
check, started-status check, existing-completion check; then one
transaction creating the `TripCompletion`, saving the ride as completed
and restoring the driver's availability (skipped when the location row is
missing). -/
def completeTrip (db : Db) (driverID : Nat) (userType : String) (rideID : Nat)
    (inp : CompleteInput) : Db × Resp :=
  if userType ≠ UserTypeDriver then (db, .err 403 "Only drivers can complete trips")
  else if inp.actualFare = 0 ∨ inp.actualDistance = 0 ∨ inp.actualDuration = 0 then
    (db, .err 400 "binding error")
  else if inp.actualFare < 0 then (db, .err 400 "Actual fare must be non-negative")
  else if inp.actualDistance < 0 then (db, .err 400 "Actual distance must be non-negative")
  else if inp.actualDuration < 0 then (db, .err 400 "Actual duration must be non-negative")
  else match findRide db rideID with
  | none => (db, .err 404 "Ride not found")
  | some ride =>
    if ride.driverID ≠ some driverID then (db, .err 403 "Unauthorized to complete this ride")
    else if ride.status ≠ RideStatusStarted then
      (db, .err 400 "Ride must be started before completion")
    else match findTripCompletion db rideID with
    | some _ => (db, .err 400 "Trip already completed")
    | none =>
      let tc : TripCompletion :=
        { rideID := rideID, driverID := driverID, clientID := ride.clientID
          actualFare := inp.actualFare, actualDistance := inp.actualDistance
          actualDuration := inp.actualDuration, driverNotes := inp.driverNotes }
      let db1 := { db with tripCompletions := db.tripCompletions ++ [tc] }
      let db2 := saveRide db1 { ride with status := RideStatusCompleted }
      let db3 :=
        match findDriverLocation db2 driverID with
        | some loc => saveDriverLocation db2 { loc with isAvailable := true }
        | none => db2
      (db3, .ok 200)

/-- `GetTripCompletion` (trip completion handlers file, lines 720-746). -/
def getTripCompletion (db : Db) (userID : Nat) (rideID : Nat) :
    Resp × Option TripCompletion :=
  match findTripCompletion db rideID with
  | none => (.err 404 "Trip completion not found", none)
  | some tc =>
    if tc.driverID ≠ userID ∧ tc.clientID ≠ userID then
      (.err 403 "Unauthorized to view this trip completion", none)
    else (.ok 200, some tc)

/-- Guard phase of `CancelRide` (`internal/handlers/ride_requests.go`,
lines 168-200): ride lookup, ownership checks, terminal-status check. -/
def cancelCheck (db : Db) (userID : Nat) (userType : String) (rideID : Nat) :
    Except Resp RideRequest :=
  match findRide db rideID with
  | none => .error (.err 404 "Ride not found")
  | some ride =>
    if userType = UserTypeClient ∧ ride.clientID ≠ userID then
      .error (.err 403 "Unauthorized to cancel this ride")
    else if userType = UserTypeDriver ∧ ride.driverID ≠ some userID then
      .error (.err 403 "Unauthorized to cancel this ride")
    else if ride.status = RideStatusCompleted ∨ ride.status = RideStatusCancelled then
      .error (.err 400 "Ride cannot be cancelled")
    else .ok ride

/-- First write of `CancelRide` (lines 202-207): `db.Save` of the ride with
status cancelled.  This is a standalone save, not part of a transaction. -/
def cancelSaveRide (db : Db) (ride : RideRequest) : Db :=
  saveRide db { ride with status := RideStatusCancelled }

/-- Second write of `CancelRide` (lines 209-216): if a driver was bound,
look its location row up and save it with `IsAvailable := true`.  A second
standalone save; its error result is discarded by the source. -/
def cancelRestoreDriver (db : Db) (ride : RideRequest) : Db :=
  match ride.driverID with
  | none => db
  | some d =>
    match findDriverLocation db d with
    | some loc => saveDriverLocation db { loc with isAvailable := true }
    | none => db

/-- `CancelRide`, one request run to completion with no interference. -/
def cancelRide (db : Db) (userID : Nat) (userType : String) (rideID : Nat) :
    Db × Resp :=
  match cancelCheck db userID userType rideID with
  | .error e => (db, e)
  | .ok ride => (cancelRestoreDriver (cancelSaveRide db ride) ride, .ok 200)

/-- `UpdateRideStatus` (`internal/handlers/ride_requests.go`, lines
324-391): the status string is bound with `binding:"required"` (gin
rejects the empty string), then after the ownership checks it is written
verbatim with no transition validation. -/
def updateRideStatus (db : Db) (userID : Nat) (userType : String) (rideID : Nat)
    (status : String) : Db × Resp :=
  if status = "" then (db, .err 400 "binding error")
  else match findRide db rideID with
  | none => (db, .err 404 "Ride not found")
  | some ride =>
    if userType = UserTypeClient ∧ ride.clientID ≠ userID then
      (db, .err 403 "Unauthorized to update this ride")
    else if userType = UserTypeDriver ∧ ride.driverID ≠ some userID then
      (db, .err 403 "Unauthorized to update this ride")
    else (saveRide db { ride with status := status }, .ok 200)

/-- One endpoint of a requested trip, as bound from JSON; all fields carry
`binding:"required"`. -/
structure GeoPoint where
  lat : ℚ
  lng : ℚ
  address : String
deriving DecidableEq, Repr

/-- JSON input of `RequestRide`. -/
structure RideInput where
  pickup : GeoPoint
  destination : GeoPoint
deriving DecidableEq, Repr

/-- `RequestRide` (`internal/handlers/ride_requests.go`, lines 15-165),
parameterised by the distance function (the source uses
`utils.HaversineDistance`, a transcendental computation treated here as an
oracle).  Returns the new store, the response, and the list of driver ids
the handler invoked `hub.BroadcastToUser` with (the `ride_request`
fan-out).  Delivery is best-effort: no outcome of it is consulted, so the
response never depends on it; a failed `json.Marshal` is the only skip in
the source and cannot occur in the model. -/
def requestRide (dist : ℚ → ℚ → ℚ → ℚ → ℚ) (db : Db) (clientID : Nat)
    (userType : String) (inp : RideInput) : Db × Resp × List Nat :=
  if userType ≠ UserTypeClient then (db, .err 403 "Only clients can request rides", [])
  else if inp.pickup.lat = 0 ∨ inp.pickup.lng = 0 ∨ inp.pickup.address = "" ∨
      inp.destination.lat = 0 ∨ inp.destination.lng = 0 ∨ inp.destination.address = "" then
    (db, .err 400 "binding error", [])
  else if inp.pickup.lat < -90 ∨ inp.pickup.lat > 90 ∨
      inp.destination.lat < -90 ∨ inp.destination.lat > 90 then
    (db, .err 400 "Invalid latitude", [])
  else if inp.pickup.lng < -180 ∨ inp.pickup.lng > 180 ∨
      inp.destination.lng < -180 ∨ inp.destination.lng > 180 then
    (db, .err 400 "Invalid longitude", [])
  else
    let distance := dist inp.pickup.lat inp.pickup.lng inp.destination.lat inp.destination.lng
    let ride : RideRequest :=
      { id := db.nextRideID, clientID := clientID, driverID := none
        pickupLat := inp.pickup.lat, pickupLng := inp.pickup.lng
        pickupAddr := inp.pickup.address
        destLat := inp.destination.lat, destLng := inp.destination.lng
        destAddr := inp.destination.address
        status := RideStatusPending
        price := calculatePrice distance 2
        distance := distance
        duration := calculateETA distance 30 }
    let db1 := { db with rides := db.rides ++ [ride], nextRideID := db.nextRideID + 1 }
    -- `WHERE is_online AND is_available`, then the 10 km filter in the loop.
    -- When the first query is empty the source returns early with the same
    -- 200 response and no notification, which coincides with the general
    -- formula below.
    let locations := db1.driverLocations.filter (fun l => l.isOnline && l.isAvailable)
    let notified :=
      (locations.filter
        (fun l => decide (dist inp.pickup.lat inp.pickup.lng l.latitude l.longitude ≤ 10))).map
        (fun l => l.driverID)
    (db1, .ok 200, notified)

/-- A WebSocket message payload (`services.WebSocketMessage` instances built
by the handlers), abstracted to its type tag and addressing-relevant data. -/
inductive Msg where
  | rideRequestMsg (rideID clientID : Nat)
  | rideAcceptedMsg (rideID driverID : Nat)
  | driverArrivedMsg (rideID driverID : Nat)
  | rideStartedMsg (rideID driverID : Nat)
  | rideCompletedMsg (rideID driverID : Nat)
  | rideCancelledMsg (rideID : Nat)
  | rideStatusUpdateMsg (rideID : Nat) (status : String)
  | driverLocationUpdateMsg (driverID : Nat) (lat lng heading : ℚ)
deriving DecidableEq, Repr

/-- One registered connection of the hub (`services.Client`): a user id and
a user type. -/
structure HubClient where
  id : Nat
  userType : String
deriving DecidableEq, Repr

/-- One delivery request handed to the hub: `BroadcastToUser`,
`BroadcastToUserType` or `BroadcastToAll` (WebSocket hub file). -/
inductive HubEvent where
  | toUser (userID : Nat) (m : Msg)
  | toRole (role : String) (m : Msg)
  | toAll (m : Msg)
deriving DecidableEq, Repr

/-- What a registered connection receives from one delivery request:
`BroadcastToUser` matches on `client.ID`, `BroadcastToUserType` on
`client.UserType`, `BroadcastToAll` matches every client. -/
def deliveredTo (c : HubClient) : HubEvent → Option Msg
  | .toUser u m => if c.id = u then some m else none
  | .toRole r m => if c.userType = r then some m else none
  | .toAll m => some m

/-- The sequence of messages a registered connection receives from a
sequence of delivery requests. -/
def hubDeliveries (c : HubClient) (es : List HubEvent) : List Msg :=
  es.filterMap (deliveredTo c)

/-- An event is addressed to user `u` specifically or to role `r`. -/
def addressedTo (u : Nat) (r : String) : HubEvent → Bool
  | .toUser v _ => v == u
  | .toRole s _ => s == r
  | .toAll _ => false

/-- An event addressed to a specific user other than `u`. -/
def addressedToOtherUser (u : Nat) : HubEvent → Bool
  | .toUser v _ => v != u
  | _ => false

/-- The hub traffic emitted by `UpdateDriverLocation` (driver location
handlers file, line 97): `SendDriverLocationUpdate` wraps the update in a
`driver_location_update` message and hands it to `BroadcastToAll`
(WebSocket hub file, line 811). -/
def updateDriverLocationHubEvents (driverID : Nat) (lat lng heading : ℚ) :
    List HubEvent :=
  [HubEvent.toAll (Msg.driverLocationUpdateMsg driverID lat lng heading)]

/-- `UpdateDriverLocation` (driver location handlers file, lines 16-108):
role check, binding (all three fields `binding:"required"`), range checks;
then upsert of the presence row — a fresh row gets `IsOnline := true` and
the zero value `IsAvailable := false`, an existing row keeps its
availability and is marked online.  The Redis mirror write and the
`BroadcastToAll` fan-out carry no state read back here. -/
def updateDriverLocation (db : Db) (driverID : Nat) (userType : String)
    (lat lng heading : ℚ) : Db × Resp :=
  if userType ≠ UserTypeDriver then (db, .err 403 "Only drivers can update location")
  else if lat = 0 ∨ lng = 0 ∨ heading = 0 then (db, .err 400 "binding error")
  else if lat < -90 ∨ lat > 90 then (db, .err 400 "Invalid latitude")
  else if lng < -180 ∨ lng > 180 then (db, .err 400 "Invalid longitude")
  else match findDriverLocation db driverID with
  | none =>
    ({ db with driverLocations := db.driverLocations ++
        [{ driverID := driverID, latitude := lat, longitude := lng, heading := heading,
           isOnline := true, isAvailable := false }] }, .ok 200)
  | some loc =>
    (saveDriverLocation db
      { loc with
        latitude := lat, longitude := lng, heading := heading, isOnline := true },
      .ok 200)

/-- `UpdateDriverAvailability` (driver location handlers file, lines
111-163): role check, then the availability flag is written onto the
existing presence row ("not found" without one).  The `isAvailable` field
arrives as a JSON pointer, so both true and false are bindable. -/
def updateDriverAvailability (db : Db) (driverID : Nat) (userType : String)
    (isAvailable : Bool) : Db × Resp :=
  if userType ≠ UserTypeDriver then (db, .err 403 "Only drivers can update availability")
  else match findDriverLocation db driverID with
  | none => (db, .err 404 "Driver location not found")
  | some loc => (saveDriverLocation db { loc with isAvailable := isAvailable }, .ok 200)

/-- One inbound request of the dispatch/presence surface, tagged with its
authenticated actor. -/
inductive Op where
  | createOp (clientID : Nat) (userType : String) (inp : RideInput)
  | acceptOp (driverID : Nat) (userType : String) (rideID : Nat)
  | rejectOp (userType : String) (rideID : Nat)
  | arriveOp (driverID : Nat) (userType : String) (rideID : Nat)
  | startOp (driverID : Nat) (userType : String) (rideID : Nat)
  | completeOp (driverID : Nat) (userType : String) (rideID : Nat) (inp : CompleteInput)
  | cancelOp (userID : Nat) (userType : String) (rideID : Nat)
  | locOp (driverID : Nat) (userType : String) (lat lng heading : ℚ)
  | availOp (driverID : Nat) (userType : String) (isAvailable : Bool)
deriving Repr

/-- The store after one request handled to completion. -/
def step (dist : ℚ → ℚ → ℚ → ℚ → ℚ) (db : Db) : Op → Db
  | .createOp c u i => (requestRide dist db c u i).1
  | .acceptOp d u rid => (acceptRide db d u rid).1
  | .rejectOp u rid => (rejectRide db u rid).1
  | .arriveOp d u rid => (driverArrived db d u rid).1
  | .startOp d u rid => (startRide db d u rid).1
  | .completeOp d u rid i => (completeTrip db d u rid i).1
  | .cancelOp uid u rid => (cancelRide db uid u rid).1
  | .locOp d u lat lng heading => (updateDriverLocation db d u lat lng heading).1
  | .availOp d u b => (updateDriverAvailability db d u b).1

/-- The store after a sequence of dispatch requests starting from `db`. -/
def execFrom (dist : ℚ → ℚ → ℚ → ℚ → ℚ) (db : Db) (ops : List Op) : Db :=
  ops.foldl (step dist) db

/-- The store after a sequence of dispatch requests from the empty store. -/
def execOps (dist : ℚ → ℚ → ℚ → ℚ → ℚ) (ops : List Op) : Db :=
  execFrom dist initDb ops

/-- Two concurrent `AcceptRide` requests for the same ride in the
interleaving where both read phases run before either transaction commits
— the schedule the source permits because the transaction never re-checks
the status it read (`read-then-save without a guard`).  Returns the final
store and the two responses. -/
def acceptRacedPair (db : Db) (d1 d2 : Nat) (rideID : Nat) : Db × Resp × Resp :=
  match acceptRead db d1 UserTypeDriver rideID, acceptRead db d2 UserTypeDriver rideID with
  | .error e1, .error e2 => (db, e1, e2)
  | .error e1, .ok s2 => (acceptCommit db d2 s2, e1, .ok 200)
  | .ok s1, .error e2 => (acceptCommit db d1 s1, .ok 200, e2)
  | .ok s1, .ok s2 => (acceptCommit (acceptCommit db d1 s1) d2 s2, .ok 200, .ok 200)

/-- `accepted` / `arrived` / `started` / `completed`: the statuses the spec
pairs with a bound driver. -/
def statusBindsDriver (s : String) : Prop :=
  s = RideStatusAccepted ∨ s = RideStatusArrived ∨ s = RideStatusStarted ∨
    s = RideStatusCompleted

/-- The driver-reference half of the spec's ride invariant, weakened where
the code forces it: unset while pending, set in the four driver-bound
statuses (nothing is said about `cancelled`). -/
def rideDriverOk (r : RideRequest) : Prop :=
  (r.status = RideStatusPending → r.driverID = none) ∧
  (statusBindsDriver r.status → r.driverID ≠ none)

/-- A distance oracle that always answers 1 km (stand-in for
`utils.HaversineDistance` on concrete runs). -/
def distOne : ℚ → ℚ → ℚ → ℚ → ℚ := fun _ _ _ _ => 1

/-- A distance oracle answering 79 km for points at longitude 80 and 1 km
otherwise (stand-in for `utils.HaversineDistance` in witnesses where the
distance filter has to matter). -/
def distByLng : ℚ → ℚ → ℚ → ℚ → ℚ := fun _ _ _ bLng => if bLng = 80 then 79 else 1

/-- A concrete well-formed ride-creation input. -/
def exInput : RideInput :=
  { pickup := { lat := 1, lng := 1, address := "A" }
    destination := { lat := 1, lng := 2, address := "B" } }

/-- Store for the accept race: one pending ride, two available drivers. -/
def raceDb : Db :=
  { rides := [{ id := 1, clientID := 10, driverID := none, pickupLat := 1, pickupLng := 1,
                pickupAddr := "A", destLat := 1, destLng := 2, destAddr := "B",
                status := RideStatusPending, price := 7, distance := 1, duration := 2 }]
    driverLocations :=
      [{ driverID := 1, latitude := 1, longitude := 1, heading := 0,
         isOnline := true, isAvailable := true },
       { driverID := 2, latitude := 1, longitude := 1, heading := 0,
         isOnline := true, isAvailable := true }]
    tripCompletions := []
    nextRideID := 2 }

/-- An accepted ride bound to driver 1, owned by client 10. -/
def c2Ride : RideRequest :=
  { id := 1, clientID := 10, driverID := some 1, pickupLat := 1, pickupLng := 1,
    pickupAddr := "A", destLat := 1, destLng := 2, destAddr := "B",
    status := RideStatusAccepted, price := 7, distance := 1, duration := 2 }

/-- Store for the cancel-atomicity analysis: the accepted ride and the
bound driver's presence row (made unavailable by the acceptance). -/
def c2Db : Db :=
  { rides := [c2Ride]
    driverLocations :=
      [{ driverID := 1, latitude := 1, longitude := 1, heading := 0,
         isOnline := true, isAvailable := false }]
    tripCompletions := []
    nextRideID := 2 }

/-- A pending, unassigned ride owned by client 10. -/
def c3Ride : RideRequest :=
  { id := 1, clientID := 10, driverID := none, pickupLat := 1, pickupLng := 1,
    pickupAddr := "A", destLat := 1, destLng := 2, destAddr := "B",
    status := RideStatusPending, price := 7, distance := 1, duration := 2 }

/-- Driver 5's presence row, online and available. -/
def c3Loc : DriverLocation :=
  { driverID := 5, latitude := 1, longitude := 1, heading := 0,
    isOnline := true, isAvailable := true }

/-- Store for the happy-path accept: pending ride, available driver 5. -/
def c3Db : Db :=
  { rides := [c3Ride], driverLocations := [c3Loc], tripCompletions := [], nextRideID := 2 }

/-- Store for the non-pending accept attempt: the ride is already accepted
by driver 1, and driver 2 (available) tries to accept it. -/
def c5Db : Db :=
  { rides := [c2Ride]
    driverLocations :=
      [{ driverID := 1, latitude := 1, longitude := 1, heading := 0,
         isOnline := true, isAvailable := false },
       { driverID := 2, latitude := 1, longitude := 1, heading := 0,
         isOnline := true, isAvailable := true }]
    tripCompletions := []
    nextRideID := 2 }

/-- Store reached from empty by: driver 1 comes online, marks available;
client 10 creates a ride; driver 1 accepts it; client 10 cancels it.  The
run leaves a cancelled ride with a bound driver. -/
def c4Db : Db :=
  execOps distOne
    [Op.locOp 1 UserTypeDriver 1 1 1,
     Op.availOp 1 UserTypeDriver true,
     Op.createOp 10 UserTypeClient exInput,
     Op.acceptOp 1 UserTypeDriver 1,
     Op.cancelOp 10 UserTypeClient 1]

/-- Presence table for the fan-out analysis: driver 1 online+available and
1 km from the pickup, driver 2 online but unavailable and just as close,
driver 3 online+available but 79 km away. -/
def c6Db : Db :=
  { rides := []
    driverLocations :=
      [{ driverID := 1, latitude := 1, longitude := 2, heading := 0,
         isOnline := true, isAvailable := true },
       { driverID := 2, latitude := 1, longitude := 2, heading := 0,
         isOnline := true, isAvailable := false },
       { driverID := 3, latitude := 1, longitude := 80, heading := 0,
         isOnline := true, isAvailable := true }]
    tripCompletions := []
    nextRideID := 1 }

/-- A started ride bound to driver 1, owned by client 10. -/
def c7Ride : RideRequest :=
  { id := 1, clientID := 10, driverID := some 1, pickupLat := 1, pickupLng := 1,
    pickupAddr := "A", destLat := 1, destLng := 2, destAddr := "B",
    status := RideStatusStarted, price := 7, distance := 1, duration := 2 }

/-- Store for the completion round-trip: started ride, bound driver's
presence row unavailable, no completion yet. -/
def c7Db : Db :=
  { rides := [c7Ride]
    driverLocations :=
      [{ driverID := 1, latitude := 1, longitude := 1, heading := 0,
         isOnline := true, isAvailable := false }]
    tripCompletions := []
    nextRideID := 2 }

/-- Actuals submitted by the driver on completion. -/
def c7Inp : CompleteInput :=
  { actualFare := 500, actualDistance := 3, actualDuration := 12, driverNotes := "ok" }

/-- A completed ride bound to driver 1, owned by client 10. -/
def c9Ride : RideRequest :=
  { id := 1, clientID := 10, driverID := some 1, pickupLat := 1, pickupLng := 1,
    pickupAddr := "A", destLat := 1, destLng := 2, destAddr := "B",
    status := RideStatusCompleted, price := 7, distance := 1, duration := 2 }

/-- Store for the generic status update: one terminal (completed) ride. -/
def c9Db : Db :=
  { rides := [c9Ride], driverLocations := [], tripCompletions := [], nextRideID := 2 }

/-- Store for the reject analysis: one pending ride, one available driver
(who is unrelated to the ride — nothing links driver 7 to it). -/
def c10Db : Db :=
  { rides := [c3Ride]
    driverLocations :=
      [{ driverID := 7, latitude := 50, longitude := 50, heading := 0,
         isOnline := true, isAvailable := true }]
    tripCompletions := []
    nextRideID := 2 }

/-- `c10Db` after driver 7's reject: the ride is cancelled. -/
def c10AfterReject : Db := (rejectRide c10Db UserTypeDriver 1).1

/-- `c10AfterReject` after the owning client pushes the ride back to
`pending` through the unvalidated generic status update. -/
def c10Resurrected : Db :=
  (updateRideStatus c10AfterReject 10 UserTypeClient 1 RideStatusPending).1

/-- Connection of user 1, a client. -/
def hubClientU1 : HubClient := { id := 1, userType := UserTypeClient }

/-- An event sequence containing a message to user 1, a message to user 2
and a role-topic message for clients. -/
def c8Events : List HubEvent :=
  [HubEvent.toUser 1 (Msg.rideAcceptedMsg 1 2),
   HubEvent.toUser 2 (Msg.rideCancelledMsg 3),
   HubEvent.toRole UserTypeClient (Msg.rideStatusUpdateMsg 1 RideStatusAccepted)]

/-- `c8Events` with the message addressed to user 2 removed. -/
def c8EventsPruned : List HubEvent :=
  [HubEvent.toUser 1 (Msg.rideAcceptedMsg 1 2),
   HubEvent.toRole UserTypeClient (Msg.rideStatusUpdateMsg 1 RideStatusAccepted)]

/-! ### Helper lemmas about keyed saves and lookups -/

theorem find?_update_self {α : Type} (key : α → Nat) (nw : α) (l : List α) (x : α)
    (hx : l.find? (fun y => key y == key nw) = some x) :
    (l.map (fun y => if key y == key nw then nw else y)).find?
      (fun y => key y == key nw) = some nw := by
  induction l with
  | nil => simp at hx
  | cons a t ih =>
    by_cases h : key a = key nw
    · simp [List.find?_cons, h]
    · have hb : (key a == key nw) = false := by simp [h]
      rw [List.find?_cons_of_neg _ (by simp [h])] at hx
      simp only [List.map_cons, hb, if_neg, Bool.false_eq_true, not_false_iff, ite_false]
      rw [List.find?_cons_of_neg _ (by simp [h])]
      exact ih hx

theorem find?_update_ne {α : Type} (key : α → Nat) (nw : α) (k : Nat) (l : List α)
    (hk : k ≠ key nw) :
    (l.map (fun y => if key y == key nw then nw else y)).find? (fun y => key y == k) =
      l.find? (fun y => key y == k) := by
  induction l with
  | nil => simp
  | cons a t ih =>
    by_cases h : key a = key nw
    · simp only [List.map_cons, h, if_pos, beq_self_eq_true, ite_true]
      rw [List.find?_cons_of_neg _ (by simp; omega), List.find?_cons_of_neg _ (by simp; omega)]
      exact ih
    · simp only [List.map_cons, (by simp [h] : (key a == key nw) = false),
        Bool.false_eq_true, not_false_iff, ite_false]
      by_cases h2 : key a = k
      · rw [List.find?_cons_of_pos _ (by simp [h2]), List.find?_cons_of_pos _ (by simp [h2])]
      · rw [List.find?_cons_of_neg _ (by simp [h2]), List.find?_cons_of_neg _ (by simp [h2])]
        exact ih

theorem mem_update {α : Type} (key : α → Nat) (nw : α) (l : List α) (z : α)
    (hz : z ∈ l.map (fun y => if key y == key nw then nw else y)) :
    z ∈ l ∨ z = nw := by
  rw [List.mem_map] at hz
  obtain ⟨x, hx, hfx⟩ := hz
  by_cases h : key x = key nw
  · right
    rw [if_pos (by simp [h])] at hfx
    exact hfx.symm
  · left
    rw [if_neg (by simp [h])] at hfx
    exact hfx ▸ hx

theorem find?_append_first {α : Type} (p : α → Bool) (l₁ l₂ : List α) (x : α)
    (hx : l₁.find? p = some x) : (l₁ ++ l₂).find? p = some x := by
  induction l₁ with
  | nil => simp at hx
  | cons a t ih =>
    by_cases h : p a
    · rw [List.find?_cons_of_pos _ h] at hx
      rw [List.cons_append, List.find?_cons_of_pos _ h]
      exact hx
    · rw [List.find?_cons_of_neg _ (by simpa using h)] at hx
      rw [List.cons_append, List.find?_cons_of_neg _ (by simpa using h)]
      exact ih hx

theorem find?_append_second {α : Type} (p : α → Bool) (l₁ l₂ : List α)
    (hx : l₁.find? p = none) : (l₁ ++ l₂).find? p = l₂.find? p := by
  induction l₁ with
  | nil => simp
  | cons a t ih =>
    by_cases h : p a
    · rw [List.find?_cons_of_pos _ h] at hx
      exact absurd hx (by simp)
    · rw [List.find?_cons_of_neg _ (by simpa using h)] at hx
      rw [List.cons_append, List.find?_cons_of_neg _ (by simpa using h)]
      exact ih hx

theorem filterMap_filter_of_none {α β : Type} (f : α → Option β) (q : α → Bool)
    (hf : ∀ a, q a = false → f a = none) (l : List α) :
    l.filterMap f = (l.filter q).filterMap f := by
  induction l with
  | nil => rfl
  | cons a t ih =>
    cases hq : q a with
    | false =>
      rw [List.filter_cons_of_neg (by simp [hq]), List.filterMap_cons, hf a hq]
      exact ih
    | true =>
      rw [List.filter_cons_of_pos hq, List.filterMap_cons, List.filterMap_cons]
      cases f a
      · exact ih
      · rw [ih]

theorem findRide_id {db : Db} {rid : Nat} {r : RideRequest}
    (h : findRide db rid = some r) : r.id = rid := by
  have := List.find?_some h
  simpa using this

theorem findDriverLocation_id {db : Db} {d : Nat} {l : DriverLocation}
    (h : findDriverLocation db d = some l) : l.driverID = d := by
  have := List.find?_some h
  simpa using this

theorem findTripCompletion_id {db : Db} {rid : Nat} {t : TripCompletion}
    (h : findTripCompletion db rid = some t) : t.rideID = rid := by
  have := List.find?_some h
  simpa using this

theorem findRide_saveDriverLocation (db : Db) (l : DriverLocation) (rid : Nat) :
    findRide (saveDriverLocation db l) rid = findRide db rid := rfl

theorem findDriverLocation_saveRide (db : Db) (r : RideRequest) (d : Nat) :
    findDriverLocation (saveRide db r) d = findDriverLocation db d := rfl

theorem findRide_saveRide_self {db : Db} {rid : Nat} {r : RideRequest}
    (nw : RideRequest) (hr : findRide db rid = some r) (hid : nw.id = rid) :
    findRide (saveRide db nw) rid = some nw := by
  have hr2 : db.rides.find? (fun y => y.id == nw.id) = some r := by
    rw [hid]; exact hr
  have := find?_update_self RideRequest.id nw db.rides r hr2
  simpa [findRide, saveRide, hid] using this

theorem findRide_saveRide_ne {db : Db} {rid : Nat} (nw : RideRequest)
    (hid : rid ≠ nw.id) :
    findRide (saveRide db nw) rid = findRide db rid := by
  have := find?_update_ne RideRequest.id nw rid db.rides hid
  simpa [findRide, saveRide] using this

theorem findDriverLocation_saveDriverLocation_self {db : Db} {d : Nat}
    {l : DriverLocation} (nw : DriverLocation)
    (hl : findDriverLocation db d = some l) (hid : nw.driverID = d) :
    findDriverLocation (saveDriverLocation db nw) d = some nw := by
  have hl2 : db.driverLocations.find? (fun y => y.driverID == nw.driverID) = some l := by
    rw [hid]; exact hl
  have := find?_update_self DriverLocation.driverID nw db.driverLocations l hl2
  simpa [findDriverLocation, saveDriverLocation, hid] using this

theorem findDriverLocation_saveDriverLocation_ne {db : Db} {d : Nat}
    (nw : DriverLocation) (hid : d ≠ nw.driverID) :
    findDriverLocation (saveDriverLocation db nw) d = findDriverLocation db d := by
  have := find?_update_ne DriverLocation.driverID nw d db.driverLocations hid
  simpa [findDriverLocation, saveDriverLocation] using this

/-! ### C1: the accept race -/

/-- Claim C1 (code bug): `AcceptRide` reads the pending status and saves
without a guard, so in the interleaving where both drivers' read phases run
before either transaction commits, BOTH accept attempts report success, the
second (losing) attempt also flips its driver's presence to unavailable and
overwrites the ride's driver binding — contradicting the at-most-one
acceptance guarantee.  Both commit orders of that read-read schedule end
with both calls succeeding. -/
theorem acceptRide_race_both_succeed :
    ((acceptRacedPair raceDb 1 2 1).2.1 = Resp.ok 200 ∧
     (acceptRacedPair raceDb 1 2 1).2.2 = Resp.ok 200) ∧
    ((acceptRacedPair raceDb 2 1 1).2.1 = Resp.ok 200 ∧
     (acceptRacedPair raceDb 2 1 1).2.2 = Resp.ok 200) ∧
    (findDriverLocation (acceptRacedPair raceDb 1 2 1).1 1).map DriverLocation.isAvailable =
      some false ∧
    (findDriverLocation (acceptRacedPair raceDb 1 2 1).1 2).map DriverLocation.isAvailable =
      some false ∧
    (findRide (acceptRacedPair raceDb 1 2 1).1 1).map RideRequest.driverID =
      some (some 2) := by
  decide

/-! ### C2: cancel applies its two writes non-atomically -/

/-- Claim C2 (code bug): `CancelRide` saves the cancelled ride and restores
the bound driver's availability with two independent `db.Save` calls (no
transaction; the second save's error is even discarded).  After the first
save alone the store shows the ride cancelled while the driver is still
unavailable — a half-applied state observable by any concurrent reader —
so the accept/complete/cancel family does not guarantee that both
mutations land together. -/
theorem cancelRide_partial_state_observable :
    (cancelCheck c2Db 10 UserTypeClient 1).toOption = some c2Ride ∧
    (findRide (cancelSaveRide c2Db c2Ride) 1).map RideRequest.status =
      some RideStatusCancelled ∧
    (findDriverLocation (cancelSaveRide c2Db c2Ride) 1).map DriverLocation.isAvailable =
      some false ∧
    (cancelRide c2Db 10 UserTypeClient 1).2 = Resp.ok 200 ∧
    (findDriverLocation (cancelRide c2Db 10 UserTypeClient 1).1 1).map
      DriverLocation.isAvailable = some true := by
  decide

/-! ### C3: the happy-path accept -/

/-- Claim C3: for a pending ride and a driver whose presence row exists
with `isAvailable = true`, a (non-interfered) accept call succeeds with
200, sets the ride to accepted with that driver bound, and flips the
driver's presence row to unavailable. -/
theorem acceptRide_pending_available_succeeds (db : Db) (d rid : Nat)
    (r : RideRequest) (l : DriverLocation)
    (hr : findRide db rid = some r) (hst : r.status = RideStatusPending)
    (hl : findDriverLocation db d = some l) (hav : l.isAvailable = true) :
    (acceptRide db d UserTypeDriver rid).2 = Resp.ok 200 ∧
    findRide (acceptRide db d UserTypeDriver rid).1 rid =
      some { r with driverID := some d, status := RideStatusAccepted } ∧
    findDriverLocation (acceptRide db d UserTypeDriver rid).1 d =
      some { l with isAvailable := false } := by
  have hread : acceptRead db d UserTypeDriver rid = .ok { ride := r, loc := l } := by
    simp [acceptRead, hr, hst, hl, hav]
  have hrid : r.id = rid := findRide_id hr
  have hld : l.driverID = d := findDriverLocation_id hl
  refine ⟨by simp [acceptRide, hread], ?_, ?_⟩
  · rw [acceptRide, hread]
    simp only [acceptCommit, findRide_saveDriverLocation]
    exact findRide_saveRide_self _ hr hrid
  · rw [acceptRide, hread]
    simp only [acceptCommit]
    exact findDriverLocation_saveDriverLocation_self _
      (by rw [findDriverLocation_saveRide]; exact hl) hld

/-- Witness for C3 on the concrete store `c3Db`. -/
theorem acceptRide_pending_available_succeeds_witness :
    (acceptRide c3Db 5 UserTypeDriver 1).2 = Resp.ok 200 ∧
    findRide (acceptRide c3Db 5 UserTypeDriver 1).1 1 =
      some { c3Ride with driverID := some 5, status := RideStatusAccepted } ∧
    findDriverLocation (acceptRide c3Db 5 UserTypeDriver 1).1 5 =
      some { c3Loc with isAvailable := false } :=
  acceptRide_pending_available_succeeds c3Db 5 1 c3Ride c3Loc (by decide) (by decide)
    (by decide) (by decide)

/-! ### C5: accept on a non-pending ride -/

/-- Claim C5: an accept call by any driver on an existing ride whose status
is not pending answers exactly 400 "Ride is no longer available" and
returns the store unchanged — neither the ride nor any presence row
(in particular the caller's) is touched. -/
theorem acceptRide_nonpending_rejected (db : Db) (d rid : Nat) (r : RideRequest)
    (hr : findRide db rid = some r) (hst : r.status ≠ RideStatusPending) :
    acceptRide db d UserTypeDriver rid = (db, Resp.err 400 "Ride is no longer available") := by
  simp [acceptRide, acceptRead, hr, hst]

/-- Witness for C5: driver 2 tries to accept the ride already accepted by
driver 1. -/
theorem acceptRide_nonpending_rejected_witness :
    acceptRide c5Db 2 UserTypeDriver 1 = (c5Db, Resp.err 400 "Ride is no longer available") :=
  acceptRide_nonpending_rejected c5Db 2 1 c2Ride (by decide) (by decide)

/-! ### C9: the generic status update -/

/-- Counterexample to C9 as stated: the status string is bound with
`binding:"required"`, so the empty string is rejected with 400 before any
write — the update does not succeed "for any S". -/
theorem updateRideStatus_empty_counterexample :
    updateRideStatus c9Db 10 UserTypeClient 1 "" = (c9Db, Resp.err 400 "binding error") ∧
    (updateRideStatus c9Db 10 UserTypeClient 1 "").2 ≠ Resp.ok 200 := by
  decide

/-- Claim C9 (amended to non-empty status strings): for an existing ride
and a caller who is the owning client or the bound driver, the generic
update sets the status to exactly the requested non-empty string S and
reports success — with no cross-state validation: any S (also outside the
status enum) from any current status (also terminal ones). -/
theorem updateRideStatus_sets_any_nonempty_status (db : Db) (uid rid : Nat)
    (utype S : String) (r : RideRequest)
    (hr : findRide db rid = some r) (hS : S ≠ "")
    (hauth : (utype = UserTypeClient ∧ r.clientID = uid) ∨
             (utype = UserTypeDriver ∧ r.driverID = some uid)) :
    updateRideStatus db uid utype rid S = (saveRide db { r with status := S }, Resp.ok 200) ∧
    findRide (updateRideStatus db uid utype rid S).1 rid = some { r with status := S } := by
  have hrid : r.id = rid := findRide_id hr
  have hmain : updateRideStatus db uid utype rid S =
      (saveRide db { r with status := S }, Resp.ok 200) := by
    rcases hauth with ⟨hut, hcid⟩ | ⟨hut, hdid⟩
    · simp [updateRideStatus, hS, hr, hut, hcid, UserTypeClient, UserTypeDriver]
    · simp [updateRideStatus, hS, hr, hut, hdid, UserTypeClient, UserTypeDriver]
  refine ⟨hmain, ?_⟩
  rw [hmain]
  exact findRide_saveRide_self _ hr hrid

/-- Witness for C9 (amended): the owning client pushes the out-of-enum
string "warp" onto a ride already in the terminal completed state. -/
theorem updateRideStatus_sets_any_nonempty_status_witness :
    updateRideStatus c9Db 10 UserTypeClient 1 "warp" =
      (saveRide c9Db { c9Ride with status := "warp" }, Resp.ok 200) ∧
    findRide (updateRideStatus c9Db 10 UserTypeClient 1 "warp").1 1 =
      some { c9Ride with status := "warp" } :=
  updateRideStatus_sets_any_nonempty_status c9Db 10 1 UserTypeClient "warp" c9Ride
    (by decide) (by decide) (Or.inl ⟨rfl, by decide⟩)

/-! ### C6: the ride-request fan-out -/

/-- Claim C6: a successful ride-creation request invokes the `ride_request`
fan-out for exactly the drivers whose presence row is online and available
and within 10 distance units of the pickup; moreover the response is
computed without consulting the presence table or any delivery outcome, so
no notification failure can fail the request (conjunct two: the response is
the same for every presence table, in particular when nobody can be
notified). -/
theorem requestRide_notifies_exactly_nearby (dist : ℚ → ℚ → ℚ → ℚ → ℚ)
    (db : Db) (c : Nat) (inp : RideInput)
    (h200 : (requestRide dist db c UserTypeClient inp).2.1 = Resp.ok 200) (d : Nat) :
    (d ∈ (requestRide dist db c UserTypeClient inp).2.2 ↔
      ∃ l, l ∈ db.driverLocations ∧ l.driverID = d ∧ l.isOnline = true ∧
        l.isAvailable = true ∧
        dist inp.pickup.lat inp.pickup.lng l.latitude l.longitude ≤ 10) ∧
    ∀ locs2 : List DriverLocation,
      (requestRide dist { db with driverLocations := locs2 } c UserTypeClient inp).2.1 =
        (requestRide dist db c UserTypeClient inp).2.1 := by
  have hnot : (requestRide dist db c UserTypeClient inp).2.2 =
      ((db.driverLocations.filter (fun l => l.isOnline && l.isAvailable)).filter
        (fun l =>
          decide (dist inp.pickup.lat inp.pickup.lng l.latitude l.longitude ≤ 10))).map
        (fun l => l.driverID) := by
    rw [requestRide] at h200 ⊢
    split_ifs at h200 ⊢
    all_goals simp_all
  constructor
  · rw [hnot]
    simp only [List.mem_map, List.mem_filter, Bool.and_eq_true, decide_eq_true_eq]
    constructor
    · rintro ⟨l, ⟨⟨hmem, hon, hav⟩, hdist⟩, hid⟩
      exact ⟨l, hmem, hid, hon, hav, hdist⟩
    · rintro ⟨l, hmem, hid, hon, hav, hdist⟩
      exact ⟨l, ⟨⟨hmem, hon, hav⟩, hdist⟩, hid⟩
  · intro locs2
    rw [requestRide, requestRide]
    split_ifs <;> rfl

/-- Witness for C6 on `c6Db`: with pickup (1,1), driver 1 (available, 1 km
away) is notified. -/
theorem requestRide_notifies_exactly_nearby_witness :
    1 ∈ (requestRide distByLng c6Db 10 UserTypeClient exInput).2.2 :=
  ((requestRide_notifies_exactly_nearby distByLng c6Db 10 exInput (by decide) 1).1).mpr
    ⟨{ driverID := 1, latitude := 1, longitude := 2, heading := 0,
       isOnline := true, isAvailable := true }, by decide, rfl, rfl, rfl, by decide⟩


/-! ### C7: completion round-trip -/

theorem findTripCompletion_saveRide (db : Db) (r : RideRequest) (rid : Nat) :
    findTripCompletion (saveRide db r) rid = findTripCompletion db rid := rfl

theorem findTripCompletion_saveDriverLocation (db : Db) (l : DriverLocation) (rid : Nat) :
    findTripCompletion (saveDriverLocation db l) rid = findTripCompletion db rid := rfl

theorem findTripCompletion_appendNew (db : Db) (tc : TripCompletion) (rid : Nat)
    (hnc : findTripCompletion db rid = none) (hid : tc.rideID = rid) :
    findTripCompletion { db with tripCompletions := db.tripCompletions ++ [tc] } rid =
      some tc := by
  unfold findTripCompletion at *
  rw [find?_append_second _ _ _ hnc]
  simp [hid]

theorem completeTrip_success_eq (db : Db) (d rid : Nat) (r : RideRequest)
    (inp : CompleteInput)
    (hr : findRide db rid = some r) (hdr : r.driverID = some d)
    (hst : r.status = RideStatusStarted)
    (hnc : findTripCompletion db rid = none)
    (hfz : ¬(inp.actualFare = 0 ∨ inp.actualDistance = 0 ∨ inp.actualDuration = 0))
    (hfneg : ¬inp.actualFare < 0) (hdqneg : ¬inp.actualDistance < 0)
    (hduneg : ¬inp.actualDuration < 0) :
    completeTrip db d UserTypeDriver rid inp =
      (match findDriverLocation db d with
       | some loc =>
          saveDriverLocation
            (saveRide { db with tripCompletions := db.tripCompletions ++
                [{ rideID := rid, driverID := d, clientID := r.clientID,
                   actualFare := inp.actualFare, actualDistance := inp.actualDistance,
                   actualDuration := inp.actualDuration, driverNotes := inp.driverNotes }] }
              { r with status := RideStatusCompleted })
            { loc with isAvailable := true }
       | none =>
          saveRide { db with tripCompletions := db.tripCompletions ++
              [{ rideID := rid, driverID := d, clientID := r.clientID,
                 actualFare := inp.actualFare, actualDistance := inp.actualDistance,
                 actualDuration := inp.actualDuration, driverNotes := inp.driverNotes }] }
            { r with status := RideStatusCompleted },
       Resp.ok 200) := by
  rw [completeTrip]
  rw [if_neg (by simp : ¬UserTypeDriver ≠ UserTypeDriver)]
  rw [if_neg hfz, if_neg hfneg, if_neg hdqneg, if_neg hduneg, hr]
  simp only [hdr, hst, hnc, ne_eq, not_true_eq_false, if_false, ite_false, if_neg,
    not_false_eq_true, ite_true]
  rfl

theorem completeTrip_not_started (db : Db) (d rid : Nat) (inp2 : CompleteInput)
    (r : RideRequest) (hr : findRide db rid = some r)
    (hst : r.status ≠ RideStatusStarted) :
    (completeTrip db d UserTypeDriver rid inp2).1 = db ∧
    (completeTrip db d UserTypeDriver rid inp2).2 ≠ Resp.ok 200 := by
  rw [completeTrip]
  split_ifs with h1 h2 h3 h4 h5
  · exact ⟨rfl, by simp⟩
  · exact ⟨rfl, by simp⟩
  · exact ⟨rfl, by simp⟩
  · exact ⟨rfl, by simp⟩
  · exact ⟨rfl, by simp⟩
  · simp only [hr]
    by_cases h6 : r.driverID ≠ some d
    · rw [if_pos h6]
      exact ⟨rfl, by simp⟩
    · rw [if_neg h6, if_pos hst]
      exact ⟨rfl, by simp⟩

theorem completeTrip_completed_msg (db : Db) (d rid : Nat) (r : RideRequest)
    (inp : CompleteInput)
    (hr : findRide db rid = some r) (hdr : r.driverID = some d)
    (hst : r.status = RideStatusCompleted)
    (hfz : ¬(inp.actualFare = 0 ∨ inp.actualDistance = 0 ∨ inp.actualDuration = 0))
    (hfneg : ¬inp.actualFare < 0) (hdqneg : ¬inp.actualDistance < 0)
    (hduneg : ¬inp.actualDuration < 0) :
    completeTrip db d UserTypeDriver rid inp =
      (db, Resp.err 400 "Ride must be started before completion") := by
  rw [completeTrip]
  rw [if_neg (by simp : ¬UserTypeDriver ≠ UserTypeDriver)]
  rw [if_neg hfz, if_neg hfneg, if_neg hdqneg, if_neg hduneg]
  simp only [hr]
  rw [if_neg (by simp [hdr])]
  rw [if_pos (by rw [hst]; decide)]

/-- Claim C7 (amended): completing a started ride stores exactly the
submitted actuals — reading the TripCompletion back returns them verbatim
— and a second complete call cannot succeed and never mutates the store
or creates a second record; when its input passes the binding checks it
fails specifically with 400 "Ride must be started before completion"
(the ride is no longer started), not with the "Trip already completed"
conflict message. -/
theorem completeTrip_roundtrip (db : Db) (d rid : Nat) (r : RideRequest)
    (inp : CompleteInput)
    (hr : findRide db rid = some r) (hdr : r.driverID = some d)
    (hst : r.status = RideStatusStarted)
    (hnc : findTripCompletion db rid = none)
    (hf : 0 < inp.actualFare) (hdq : 0 < inp.actualDistance)
    (hdu : 0 < inp.actualDuration) :
    (completeTrip db d UserTypeDriver rid inp).2 = Resp.ok 200 ∧
    getTripCompletion (completeTrip db d UserTypeDriver rid inp).1 d rid =
      (Resp.ok 200,
        some { rideID := rid, driverID := d, clientID := r.clientID,
               actualFare := inp.actualFare, actualDistance := inp.actualDistance,
               actualDuration := inp.actualDuration, driverNotes := inp.driverNotes }) ∧
    (∀ inp2 : CompleteInput,
      (completeTrip (completeTrip db d UserTypeDriver rid inp).1 d UserTypeDriver rid
          inp2).1 = (completeTrip db d UserTypeDriver rid inp).1 ∧
      (completeTrip (completeTrip db d UserTypeDriver rid inp).1 d UserTypeDriver rid
          inp2).2 ≠ Resp.ok 200) ∧
    completeTrip (completeTrip db d UserTypeDriver rid inp).1 d UserTypeDriver rid inp =
      ((completeTrip db d UserTypeDriver rid inp).1,
        Resp.err 400 "Ride must be started before completion") := by
  have hfz : ¬(inp.actualFare = 0 ∨ inp.actualDistance = 0 ∨ inp.actualDuration = 0) := by
    push_neg
    exact ⟨hf.ne', hdq.ne', hdu.ne'⟩
  have hfneg : ¬inp.actualFare < 0 := not_lt.mpr hf.le
  have hdqneg : ¬inp.actualDistance < 0 := not_lt.mpr hdq.le
  have hduneg : ¬inp.actualDuration < 0 := not_lt.mpr hdu.le
  have hrid : r.id = rid := findRide_id hr
  have hchar := completeTrip_success_eq db d rid r inp hr hdr hst hnc hfz hfneg hdqneg hduneg
  have htcs : (completeTrip db d UserTypeDriver rid inp).1.tripCompletions =
      db.tripCompletions ++
        [{ rideID := rid, driverID := d, clientID := r.clientID,
           actualFare := inp.actualFare, actualDistance := inp.actualDistance,
           actualDuration := inp.actualDuration, driverNotes := inp.driverNotes }] := by
    rw [hchar]
    cases hloc : findDriverLocation db d <;> rfl
  have hrides : (completeTrip db d UserTypeDriver rid inp).1.rides =
      db.rides.map (fun x =>
        if x.id == ({ r with status := RideStatusCompleted } : RideRequest).id then
          { r with status := RideStatusCompleted } else x) := by
    rw [hchar]
    cases hloc : findDriverLocation db d <;> rfl
  have hr2 : findRide (completeTrip db d UserTypeDriver rid inp).1 rid =
      some { r with status := RideStatusCompleted } := by
    have hr2a : db.rides.find? (fun y =>
        y.id == ({ r with status := RideStatusCompleted } : RideRequest).id) = some r := by
      show db.rides.find? (fun y => y.id == r.id) = some r
      rw [hrid]
      exact hr
    unfold findRide
    rw [hrides, ← hrid]
    exact find?_update_self RideRequest.id { r with status := RideStatusCompleted }
      db.rides r hr2a
  have htcf : findTripCompletion (completeTrip db d UserTypeDriver rid inp).1 rid =
      some { rideID := rid, driverID := d, clientID := r.clientID,
             actualFare := inp.actualFare, actualDistance := inp.actualDistance,
             actualDuration := inp.actualDuration, driverNotes := inp.driverNotes } := by
    unfold findTripCompletion
    rw [htcs]
    rw [find?_append_second _ _ _ (by simpa [findTripCompletion] using hnc)]
    simp
  refine ⟨by rw [hchar], ?_, ?_, ?_⟩
  · simp only [getTripCompletion, htcf]
    rw [if_neg (by simp)]
  · intro inp2
    have hne : RideStatusCompleted ≠ RideStatusStarted := by decide
    exact completeTrip_not_started (completeTrip db d UserTypeDriver rid inp).1 d rid inp2
      { r with status := RideStatusCompleted } hr2 hne
  · exact completeTrip_completed_msg (completeTrip db d UserTypeDriver rid inp).1 d rid
      { r with status := RideStatusCompleted } inp hr2 hdr rfl hfz hfneg hdqneg hduneg

/-- Witness for C7 (amended) on `c7Db`: the stored actuals read back
verbatim. -/
theorem completeTrip_roundtrip_witness :
    getTripCompletion (completeTrip c7Db 1 UserTypeDriver 1 c7Inp).1 1 1 =
      (Resp.ok 200,
        some { rideID := 1, driverID := 1, clientID := 10, actualFare := 500,
               actualDistance := 3, actualDuration := 12, driverNotes := "ok" }) :=
  (completeTrip_roundtrip c7Db 1 1 c7Ride c7Inp (by decide) (by decide) (by decide)
    (by decide) (by decide) (by decide) (by decide)).2.1

/-- Counterexample to C7 as stated: after a successful completion the ride
status is `completed`, so a second `CompleteTrip` call fails the
started-status precondition (400 "Ride must be started before completion")
— it never reaches the "Trip already completed" conflict branch, which is
checked only after the status check. -/
theorem completeTrip_second_call_counterexample :
    (completeTrip (completeTrip c7Db 1 UserTypeDriver 1 c7Inp).1 1 UserTypeDriver 1 c7Inp).2 =
      Resp.err 400 "Ride must be started before completion" ∧
    (completeTrip (completeTrip c7Db 1 UserTypeDriver 1 c7Inp).1 1 UserTypeDriver 1 c7Inp).2 ≠
      Resp.err 400 "Trip already completed" := by
  decide

/-! ### C8: hub addressing -/

/-- Counterexample to C8 as stated: `UpdateDriverLocation` (a presence
operation) hands its `driver_location_update` message to `BroadcastToAll`,
so user 1's connection receives a message that is neither addressed to
user 1 specifically nor to user 1's role topic. -/
theorem hub_broadcastAll_counterexample :
    hubDeliveries hubClientU1 (updateDriverLocationHubEvents 2 5 5 0) =
      [Msg.driverLocationUpdateMsg 2 5 5 0] ∧
    addressedTo hubClientU1.id hubClientU1.userType
      (HubEvent.toAll (Msg.driverLocationUpdateMsg 2 5 5 0)) = false := by
  decide

/-- Claim C8 (amended): a connection for user U1 receives only messages
addressed to U1 specifically, to U1's role topic, or broadcast to every
connection (`BroadcastToAll`, used for driver-location updates); it never
receives a message addressed to a different specific user, and two event
sequences that differ only in user-addressed messages for users other than
U1 deliver the same message sequence to U1's connection. -/
theorem hub_user_isolation (c : HubClient) (es1 es2 : List HubEvent)
    (h : es1.filter (fun e => !addressedToOtherUser c.id e) =
         es2.filter (fun e => !addressedToOtherUser c.id e)) :
    hubDeliveries c es1 = hubDeliveries c es2 ∧
    ∀ e ∈ es1, ∀ m, deliveredTo c e = some m →
      addressedTo c.id c.userType e = true ∨ ∃ m2, e = HubEvent.toAll m2 := by
  have hnone : ∀ e, (!addressedToOtherUser c.id e) = false → deliveredTo c e = none := by
    intro e he
    cases e with
    | toUser v m =>
      have hv : v ≠ c.id := by
        intro hh
        rw [hh] at he
        simp [addressedToOtherUser] at he
      simp only [deliveredTo]
      rw [if_neg (fun hh => hv hh.symm)]
    | toRole s m => simp [addressedToOtherUser] at he
    | toAll m => simp [addressedToOtherUser] at he
  constructor
  · have h1 := filterMap_filter_of_none (deliveredTo c)
      (fun e => !addressedToOtherUser c.id e) hnone es1
    have h2 := filterMap_filter_of_none (deliveredTo c)
      (fun e => !addressedToOtherUser c.id e) hnone es2
    rw [hubDeliveries, hubDeliveries, h1, h2, h]
  · intro e hmem m hdel
    cases e with
    | toUser v m2 =>
      left
      by_cases hv : c.id = v
      · simp [addressedTo, hv]
      · simp [deliveredTo, hv] at hdel
    | toRole s m2 =>
      left
      by_cases hs : c.userType = s
      · simp [addressedTo, hs]
      · simp [deliveredTo, hs] at hdel
    | toAll m2 => exact Or.inr ⟨m2, rfl⟩

/-- Witness for C8 (amended): pruning the message addressed to user 2 from
`c8Events` leaves user 1's delivered sequence unchanged. -/
theorem hub_user_isolation_witness :
    hubDeliveries hubClientU1 c8Events = hubDeliveries hubClientU1 c8EventsPruned :=
  (hub_user_isolation hubClientU1 c8Events c8EventsPruned (by decide)).1

/-! Shape lemmas: how each handler transforms the rides table. -/

theorem rides_cancelRestoreDriver (db : Db) (r : RideRequest) :
    (cancelRestoreDriver db r).rides = db.rides := by
  cases hdr : r.driverID with
  | none => simp [cancelRestoreDriver, hdr]
  | some d =>
    cases hl : findDriverLocation db d with
    | none => simp [cancelRestoreDriver, hdr, hl]
    | some loc => simp [cancelRestoreDriver, hdr, hl, saveDriverLocation]

theorem rides_requestRide (dist : ℚ → ℚ → ℚ → ℚ → ℚ) (db : Db) (c : Nat)
    (u : String) (inp : RideInput) :
    (requestRide dist db c u inp).1.rides = db.rides ∨
    ∃ nr : RideRequest, nr.status = RideStatusPending ∧ nr.driverID = none ∧
      (requestRide dist db c u inp).1.rides = db.rides ++ [nr] := by
  rw [requestRide]
  split_ifs
  · left; rfl
  · left; rfl
  · left; rfl
  · left; rfl
  · right; exact ⟨_, rfl, rfl, rfl⟩

theorem rides_acceptRide (db : Db) (d : Nat) (u : String) (rid : Nat) :
    (acceptRide db d u rid).1.rides = db.rides ∨
    ∃ r, findRide db rid = some r ∧ r.status = RideStatusPending ∧
      (acceptRide db d u rid).1.rides =
        (saveRide db { r with driverID := some d, status := RideStatusAccepted }).rides := by
  by_cases h1 : u ≠ UserTypeDriver
  · left; simp [acceptRide, acceptRead, h1]
  cases hr : findRide db rid with
  | none => left; simp [acceptRide, acceptRead, h1, hr]
  | some r =>
    by_cases h2 : r.status ≠ RideStatusPending
    · left; simp [acceptRide, acceptRead, h1, hr, h2]
    cases hl : findDriverLocation db d with
    | none => left; simp [acceptRide, acceptRead, h1, hr, h2, hl]
    | some loc =>
      by_cases h3 : loc.isAvailable = false
      · left; simp [acceptRide, acceptRead, h1, hr, h2, hl, h3]
      right
      refine ⟨r, rfl, not_not.mp h2, ?_⟩
      simp [acceptRide, acceptRead, h1, hr, h2, hl, h3, acceptCommit,
        saveDriverLocation, saveRide]

theorem rides_rejectRide (db : Db) (u : String) (rid : Nat) :
    (rejectRide db u rid).1.rides = db.rides ∨
    ∃ r, findRide db rid = some r ∧ r.status = RideStatusPending ∧
      (rejectRide db u rid).1.rides =
        (saveRide db { r with status := RideStatusCancelled }).rides := by
  by_cases h1 : u ≠ UserTypeDriver
  · left; simp [rejectRide, h1]
  cases hr : findRide db rid with
  | none => left; simp [rejectRide, h1, hr]
  | some r =>
    by_cases h2 : r.status ≠ RideStatusPending
    · left; simp [rejectRide, h1, hr, h2]
    · right
      refine ⟨r, rfl, not_not.mp h2, ?_⟩
      simp [rejectRide, h1, hr, h2]

theorem rides_driverArrived (db : Db) (d : Nat) (u : String) (rid : Nat) :
    (driverArrived db d u rid).1.rides = db.rides ∨
    ∃ r, findRide db rid = some r ∧ r.driverID = some d ∧
      r.status = RideStatusAccepted ∧
      (driverArrived db d u rid).1.rides =
        (saveRide db { r with status := RideStatusArrived }).rides := by
  by_cases h1 : u ≠ UserTypeDriver
  · left; simp [driverArrived, h1]
  cases hr : findRide db rid with
  | none => left; simp [driverArrived, h1, hr]
  | some r =>
    by_cases h2 : r.driverID ≠ some d
    · left; simp [driverArrived, h1, hr, h2]
    by_cases h3 : r.status ≠ RideStatusAccepted
    · left; simp [driverArrived, h1, hr, h2, h3]
    right
    refine ⟨r, rfl, not_not.mp h2, not_not.mp h3, ?_⟩
    simp [driverArrived, h1, hr, h2, h3]

theorem rides_startRide (db : Db) (d : Nat) (u : String) (rid : Nat) :
    (startRide db d u rid).1.rides = db.rides ∨
    ∃ r, findRide db rid = some r ∧ r.driverID = some d ∧
      (r.status = RideStatusAccepted ∨ r.status = RideStatusArrived) ∧
      (startRide db d u rid).1.rides =
        (saveRide db { r with status := RideStatusStarted }).rides := by
  by_cases h1 : u ≠ UserTypeDriver
  · left; simp [startRide, h1]
  cases hr : findRide db rid with
  | none => left; simp [startRide, h1, hr]
  | some r =>
    by_cases h2 : r.driverID ≠ some d
    · left; simp [startRide, h1, hr, h2]
    by_cases h3 : r.status ≠ RideStatusAccepted ∧ r.status ≠ RideStatusArrived
    · left; simp [startRide, h1, hr, h2, h3]
    right
    have h3a : r.status = RideStatusAccepted ∨ r.status = RideStatusArrived := by
      rcases not_and_or.mp h3 with h | h
      · exact Or.inl (not_not.mp h)
      · exact Or.inr (not_not.mp h)
    refine ⟨r, rfl, not_not.mp h2, h3a, ?_⟩
    simp [startRide, h1, hr, h2, h3]

theorem rides_completeTrip (db : Db) (d : Nat) (u : String) (rid : Nat)
    (inp : CompleteInput) :
    (completeTrip db d u rid inp).1.rides = db.rides ∨
    ∃ r, findRide db rid = some r ∧ r.driverID = some d ∧
      r.status = RideStatusStarted ∧
      (completeTrip db d u rid inp).1.rides =
        (saveRide db { r with status := RideStatusCompleted }).rides := by
  by_cases h1 : u ≠ UserTypeDriver
  · left; simp [completeTrip, h1]
  have hu : u = UserTypeDriver := not_not.mp h1
  subst hu
  by_cases hb : inp.actualFare = 0 ∨ inp.actualDistance = 0 ∨ inp.actualDuration = 0
  · left; simp [completeTrip, hb]
  by_cases hf : inp.actualFare < 0
  · left; simp [completeTrip, hb, hf]
  by_cases hdq : inp.actualDistance < 0
  · left; simp [completeTrip, hb, hf, hdq]
  by_cases hdu : inp.actualDuration < 0
  · left; simp [completeTrip, hb, hf, hdq, hdu]
  cases hr : findRide db rid with
  | none => left; simp [completeTrip, hb, hf, hdq, hdu, hr]
  | some r =>
    by_cases hdr : r.driverID ≠ some d
    · left; simp [completeTrip, hb, hf, hdq, hdu, hr, hdr]
    by_cases hst : r.status ≠ RideStatusStarted
    · left; simp [completeTrip, hb, hf, hdq, hdu, hr, hdr, hst]
    cases hnc : findTripCompletion db rid with
    | some tc => left; simp [completeTrip, hb, hf, hdq, hdu, hr, hdr, hst, hnc]
    | none =>
      right
      refine ⟨r, rfl, not_not.mp hdr, not_not.mp hst, ?_⟩
      rw [completeTrip_success_eq db d rid r inp hr (not_not.mp hdr) (not_not.mp hst)
        hnc hb hf hdq hdu]
      cases hloc : findDriverLocation db d <;> rfl

theorem rides_cancelRide (db : Db) (uid : Nat) (u : String) (rid : Nat) :
    (cancelRide db uid u rid).1.rides = db.rides ∨
    ∃ r, findRide db rid = some r ∧ r.status ≠ RideStatusCompleted ∧
      r.status ≠ RideStatusCancelled ∧
      (cancelRide db uid u rid).1.rides =
        (saveRide db { r with status := RideStatusCancelled }).rides := by
  cases hr : findRide db rid with
  | none => left; simp [cancelRide, cancelCheck, hr]
  | some r =>
    by_cases h1 : u = UserTypeClient ∧ r.clientID ≠ uid
    · left; simp [cancelRide, cancelCheck, hr, h1]
    by_cases h2 : u = UserTypeDriver ∧ r.driverID ≠ some uid
    · left; simp [cancelRide, cancelCheck, hr, h1, h2]
    by_cases h3 : r.status = RideStatusCompleted ∨ r.status = RideStatusCancelled
    · left; simp [cancelRide, cancelCheck, hr, h1, h2, h3]
    right
    have h3a := h3
    push_neg at h3a
    refine ⟨r, rfl, h3a.1, h3a.2, ?_⟩
    simp [cancelRide, cancelCheck, hr, h1, h2, h3, cancelSaveRide,
      rides_cancelRestoreDriver]

theorem rides_updateDriverLocation (db : Db) (d : Nat) (u : String)
    (lat lng heading : ℚ) :
    (updateDriverLocation db d u lat lng heading).1.rides = db.rides := by
  rw [updateDriverLocation]
  split_ifs
  · rfl
  · rfl
  · rfl
  · rfl
  · cases findDriverLocation db d <;> rfl

theorem rides_updateDriverAvailability (db : Db) (d : Nat) (u : String)
    (b : Bool) :
    (updateDriverAvailability db d u b).1.rides = db.rides := by
  rw [updateDriverAvailability]
  split_ifs
  · rfl
  · cases findDriverLocation db d <;> rfl

/-! Status-constant facts and invariant preservation. -/

theorem pending_not_binds : ¬ statusBindsDriver RideStatusPending := by
  unfold statusBindsDriver
  decide

theorem cancelled_not_binds : ¬ statusBindsDriver RideStatusCancelled := by
  unfold statusBindsDriver
  decide

theorem accepted_ne_pending : RideStatusAccepted ≠ RideStatusPending := by decide

theorem arrived_ne_pending : RideStatusArrived ≠ RideStatusPending := by decide

theorem started_ne_pending : RideStatusStarted ≠ RideStatusPending := by decide

theorem completed_ne_pending : RideStatusCompleted ≠ RideStatusPending := by decide

theorem cancelled_ne_pending : RideStatusCancelled ≠ RideStatusPending := by decide

theorem mem_saveRide {db : Db} {nw z : RideRequest} (hz : z ∈ (saveRide db nw).rides) :
    z ∈ db.rides ∨ z = nw :=
  mem_update RideRequest.id nw db.rides z hz

theorem rideDriverOk_bind (r : RideRequest) (d : Nat) :
    rideDriverOk { r with driverID := some d, status := RideStatusAccepted } :=
  ⟨fun hp => absurd hp accepted_ne_pending, fun _ => Option.some_ne_none d⟩

theorem rideDriverOk_cancel (r : RideRequest) :
    rideDriverOk { r with status := RideStatusCancelled } :=
  ⟨fun hp => absurd hp cancelled_ne_pending, fun hb => absurd hb cancelled_not_binds⟩

theorem rideDriverOk_setStatus (r : RideRequest) (d : Nat) (st : String)
    (hdr : r.driverID = some d) (hne : st ≠ RideStatusPending) :
    rideDriverOk { r with status := st } :=
  ⟨fun hp => absurd hp hne, fun _ => by simp [hdr]⟩

theorem rideDriverOk_pending_none (nr : RideRequest) (hst : nr.status = RideStatusPending)
    (hdn : nr.driverID = none) : rideDriverOk nr :=
  ⟨fun _ => hdn, fun hb => absurd (hst ▸ hb) pending_not_binds⟩

theorem step_preserves_rideDriverOk (dist : ℚ → ℚ → ℚ → ℚ → ℚ) (db : Db) (op : Op)
    (hdb : ∀ r ∈ db.rides, rideDriverOk r) :
    ∀ r ∈ (step dist db op).rides, rideDriverOk r := by
  intro r hmem
  cases op with
  | createOp c u i =>
    simp only [step] at hmem
    rcases rides_requestRide dist db c u i with hsh | ⟨nr, hst, hdn, hsh⟩
    · rw [hsh] at hmem; exact hdb r hmem
    · rw [hsh] at hmem
      rcases List.mem_append.mp hmem with h | h
      · exact hdb r h
      · rw [List.mem_singleton] at h
        subst h
        exact rideDriverOk_pending_none r hst hdn
  | acceptOp d u rid =>
    simp only [step] at hmem
    rcases rides_acceptRide db d u rid with hsh | ⟨r0, h0, hst0, hsh⟩
    · rw [hsh] at hmem; exact hdb r hmem
    · rw [hsh] at hmem
      rcases mem_saveRide hmem with h | h
      · exact hdb r h
      · subst h; exact rideDriverOk_bind r0 d
  | rejectOp u rid =>
    simp only [step] at hmem
    rcases rides_rejectRide db u rid with hsh | ⟨r0, h0, hst0, hsh⟩
    · rw [hsh] at hmem; exact hdb r hmem
    · rw [hsh] at hmem
      rcases mem_saveRide hmem with h | h
      · exact hdb r h
      · subst h; exact rideDriverOk_cancel r0
  | arriveOp d u rid =>
    simp only [step] at hmem
    rcases rides_driverArrived db d u rid with hsh | ⟨r0, h0, hdr0, hst0, hsh⟩
    · rw [hsh] at hmem; exact hdb r hmem
    · rw [hsh] at hmem
      rcases mem_saveRide hmem with h | h
      · exact hdb r h
      · subst h; exact rideDriverOk_setStatus r0 d RideStatusArrived hdr0 arrived_ne_pending
  | startOp d u rid =>
    simp only [step] at hmem
    rcases rides_startRide db d u rid with hsh | ⟨r0, h0, hdr0, hst0, hsh⟩
    · rw [hsh] at hmem; exact hdb r hmem
    · rw [hsh] at hmem
      rcases mem_saveRide hmem with h | h
      · exact hdb r h
      · subst h; exact rideDriverOk_setStatus r0 d RideStatusStarted hdr0 started_ne_pending
  | completeOp d u rid i =>
    simp only [step] at hmem
    rcases rides_completeTrip db d u rid i with hsh | ⟨r0, h0, hdr0, hst0, hsh⟩
    · rw [hsh] at hmem; exact hdb r hmem
    · rw [hsh] at hmem
      rcases mem_saveRide hmem with h | h
      · exact hdb r h
      · subst h
        exact rideDriverOk_setStatus r0 d RideStatusCompleted hdr0 completed_ne_pending
  | cancelOp uid u rid =>
    simp only [step] at hmem
    rcases rides_cancelRide db uid u rid with hsh | ⟨r0, h0, hc0, hn0, hsh⟩
    · rw [hsh] at hmem; exact hdb r hmem
    · rw [hsh] at hmem
      rcases mem_saveRide hmem with h | h
      · exact hdb r h
      · subst h; exact rideDriverOk_cancel r0
  | locOp d u lat lng heading =>
    simp only [step] at hmem
    rw [rides_updateDriverLocation db d u lat lng heading] at hmem
    exact hdb r hmem
  | availOp d u b =>
    simp only [step] at hmem
    rw [rides_updateDriverAvailability db d u b] at hmem
    exact hdb r hmem

theorem execFrom_preserves_rideDriverOk (dist : ℚ → ℚ → ℚ → ℚ → ℚ) (ops : List Op) :
    ∀ db : Db, (∀ r ∈ db.rides, rideDriverOk r) →
      ∀ r ∈ (execFrom dist db ops).rides, rideDriverOk r := by
  induction ops with
  | nil => intro db hdb; simpa [execFrom] using hdb
  | cons op t ih =>
    intro db hdb
    exact ih (step dist db op) (step_preserves_rideDriverOk dist db op hdb)

/-! Terminality of `cancelled` under all dispatch/presence operations. -/

theorem pending_ne_cancelled : RideStatusPending ≠ RideStatusCancelled := by decide

theorem accepted_ne_cancelled : RideStatusAccepted ≠ RideStatusCancelled := by decide

theorem arrived_ne_cancelled : RideStatusArrived ≠ RideStatusCancelled := by decide

theorem started_ne_cancelled : RideStatusStarted ≠ RideStatusCancelled := by decide

theorem findRide_congr {db1 db2 : Db} (h : db1.rides = db2.rides) (rid : Nat) :
    findRide db1 rid = findRide db2 rid := by
  unfold findRide
  rw [h]

theorem findRide_after_append {db db' : Db} {rid : Nat} {rC : RideRequest}
    (nr : RideRequest) (hrC : findRide db rid = some rC)
    (hsh : db'.rides = db.rides ++ [nr]) : findRide db' rid = some rC := by
  unfold findRide at *
  rw [hsh]
  exact find?_append_first _ _ _ _ hrC

theorem findRide_after_save_other {db db' : Db} {rid rid2 : Nat} {rC r0 : RideRequest}
    (nw : RideRequest) (hnwid : nw.id = r0.id)
    (h0 : findRide db rid2 = some r0) (h0ne : r0.status ≠ RideStatusCancelled)
    (hrC : findRide db rid = some rC) (hstC : rC.status = RideStatusCancelled)
    (hsh : db'.rides = (saveRide db nw).rides) :
    findRide db' rid = some rC := by
  have hid0 : r0.id = rid2 := findRide_id h0
  have hne : rid ≠ nw.id := by
    intro hh
    have h1 : rid = rid2 := by rw [hh, hnwid, hid0]
    rw [h1] at hrC
    have h2 : rC = r0 := Option.some.inj (hrC.symm.trans h0)
    exact h0ne (h2 ▸ hstC)
  rw [findRide_congr hsh, findRide_saveRide_ne nw hne]
  exact hrC

theorem step_keeps_cancelled (dist : ℚ → ℚ → ℚ → ℚ → ℚ) (db : Db) (rid : Nat)
    (op : Op)
    (h : (findRide db rid).map RideRequest.status = some RideStatusCancelled) :
    (findRide (step dist db op) rid).map RideRequest.status =
      some RideStatusCancelled := by
  obtain ⟨rC, hrC, hstC⟩ := Option.map_eq_some'.mp h
  cases op with
  | createOp c u i =>
    simp only [step]
    rcases rides_requestRide dist db c u i with hsh | ⟨nr, _, _, hsh⟩
    · rw [findRide_congr hsh, hrC]
      simp [hstC]
    · rw [findRide_after_append nr hrC hsh]
      simp [hstC]
  | acceptOp d u rid2 =>
    simp only [step]
    rcases rides_acceptRide db d u rid2 with hsh | ⟨r0, h0, hst0, hsh⟩
    · rw [findRide_congr hsh, hrC]
      simp [hstC]
    · rw [findRide_after_save_other _ (by rfl) h0
        (by rw [hst0]; exact pending_ne_cancelled) hrC hstC hsh]
      simp [hstC]
  | rejectOp u rid2 =>
    simp only [step]
    rcases rides_rejectRide db u rid2 with hsh | ⟨r0, h0, hst0, hsh⟩
    · rw [findRide_congr hsh, hrC]
      simp [hstC]
    · rw [findRide_after_save_other _ (by rfl) h0
        (by rw [hst0]; exact pending_ne_cancelled) hrC hstC hsh]
      simp [hstC]
  | arriveOp d u rid2 =>
    simp only [step]
    rcases rides_driverArrived db d u rid2 with hsh | ⟨r0, h0, hdr0, hst0, hsh⟩
    · rw [findRide_congr hsh, hrC]
      simp [hstC]
    · rw [findRide_after_save_other _ (by rfl) h0
        (by rw [hst0]; exact accepted_ne_cancelled) hrC hstC hsh]
      simp [hstC]
  | startOp d u rid2 =>
    simp only [step]
    rcases rides_startRide db d u rid2 with hsh | ⟨r0, h0, hdr0, hst0, hsh⟩
    · rw [findRide_congr hsh, hrC]
      simp [hstC]
    · have h0ne : r0.status ≠ RideStatusCancelled := by
        rcases hst0 with h | h
        · rw [h]; exact accepted_ne_cancelled
        · rw [h]; exact arrived_ne_cancelled
      rw [findRide_after_save_other _ (by rfl) h0
        h0ne hrC hstC hsh]
      simp [hstC]
  | completeOp d u rid2 i =>
    simp only [step]
    rcases rides_completeTrip db d u rid2 i with hsh | ⟨r0, h0, hdr0, hst0, hsh⟩
    · rw [findRide_congr hsh, hrC]
      simp [hstC]
    · rw [findRide_after_save_other _ (by rfl) h0
        (by rw [hst0]; exact started_ne_cancelled) hrC hstC hsh]
      simp [hstC]
  | cancelOp uid u rid2 =>
    simp only [step]
    rcases rides_cancelRide db uid u rid2 with hsh | ⟨r0, h0, _, hn0, hsh⟩
    · rw [findRide_congr hsh, hrC]
      simp [hstC]
    · rw [findRide_after_save_other _ (by rfl) h0
        hn0 hrC hstC hsh]
      simp [hstC]
  | locOp d u lat lng heading =>
    simp only [step]
    rw [findRide_congr (rides_updateDriverLocation db d u lat lng heading) rid, hrC]
    simp [hstC]
  | availOp d u b =>
    simp only [step]
    rw [findRide_congr (rides_updateDriverAvailability db d u b) rid, hrC]
    simp [hstC]

theorem execFrom_keeps_cancelled (dist : ℚ → ℚ → ℚ → ℚ → ℚ) (ops : List Op) :
    ∀ (db : Db) (rid : Nat),
      (findRide db rid).map RideRequest.status = some RideStatusCancelled →
      (findRide (execFrom dist db ops) rid).map RideRequest.status =
        some RideStatusCancelled := by
  induction ops with
  | nil => intro db rid h; simpa [execFrom] using h
  | cons op t ih =>
    intro db rid h
    exact ih (step dist db op) rid (step_keeps_cancelled dist db rid op h)

theorem acceptRide_resp_not_ok_of_cancelled (db : Db) (d : Nat) (u : String)
    (rid : Nat)
    (h : (findRide db rid).map RideRequest.status = some RideStatusCancelled) :
    (acceptRide db d u rid).2 ≠ Resp.ok 200 := by
  obtain ⟨r, hr, hst⟩ := Option.map_eq_some'.mp h
  by_cases h1 : u ≠ UserTypeDriver
  · simp [acceptRide, acceptRead, h1]
  · have h2 : r.status ≠ RideStatusPending := by
      rw [hst]
      exact fun hh => pending_ne_cancelled hh.symm
    simp [acceptRide, acceptRead, h1, hr, h2]

/-! ### C4: the driver/status invariant -/

/-- Counterexample to C4 as stated: through create → accept → cancel the
run `c4Db` reaches a cancelled ride whose driver reference is still set
(`CancelRide` never clears `DriverID`), so "driver non-null iff status ∈
{accepted, arrived, started, completed}" fails in the cancelled state. -/
theorem cancelled_ride_keeps_driver_counterexample :
    (findRide c4Db 1).map RideRequest.status = some RideStatusCancelled ∧
    (findRide c4Db 1).map RideRequest.driverID = some (some 1) ∧
    ¬ statusBindsDriver RideStatusCancelled :=
  ⟨by decide, by decide, cancelled_not_binds⟩

/-- Claim C4 (amended): for every ride reachable through the dispatch and
presence operations, the driver reference is unset while the status is
pending and set whenever the status is accepted/arrived/started/completed;
in the cancelled state the reference may be either (it survives a cancel
after acceptance), so only these two directions — not the biconditional —
hold. -/
theorem reachable_ride_driver_invariant (dist : ℚ → ℚ → ℚ → ℚ → ℚ)
    (ops : List Op) (r : RideRequest) (hr : r ∈ (execOps dist ops).rides) :
    rideDriverOk r :=
  execFrom_preserves_rideDriverOk dist ops initDb (by simp [initDb]) r hr

/-- Witness for C4 (amended): the ride created by a single create request
satisfies the invariant. -/
theorem reachable_ride_driver_invariant_witness :
    rideDriverOk
      { id := 1, clientID := 10, driverID := none, pickupLat := 1, pickupLng := 1,
        pickupAddr := "A", destLat := 1, destLng := 2, destAddr := "B",
        status := RideStatusPending, price := calculatePrice (distOne 1 1 1 2) 2,
        distance := distOne 1 1 1 2,
        duration := calculateETA (distOne 1 1 1 2) 30 } :=
  reachable_ride_driver_invariant distOne [Op.createOp 10 UserTypeClient exInput] _
    (List.mem_singleton.mpr rfl)

/-! ### C10: reject removes the ride for everyone -/

/-- Counterexample to C10 as stated: "no accept call by any driver can
ever succeed on that ride" is false of the program, because the generic
status update (`UpdateRideStatus`, a live route with no transition
validation) can resurrect the rejected ride.  Driver 7 rejects the pending
ride; the owning client then pushes the status string "pending" back onto
it through PATCH; driver 7's subsequent accept call answers 200. -/
theorem rejectRide_accept_after_patch_counterexample :
    (rejectRide c10Db UserTypeDriver 1).2 = Resp.ok 200 ∧
    (updateRideStatus c10AfterReject 10 UserTypeClient 1 RideStatusPending).2 =
      Resp.ok 200 ∧
    (acceptRide c10Resurrected 7 UserTypeDriver 1).2 = Resp.ok 200 := by
  decide

/-- Claim C10 (amended): any authenticated driver — the handler never
reads the caller's id, so no relation to the ride is required — can reject
a pending ride; the single reject sets the status to cancelled without
binding a driver, and as long as only the guarded dispatch and presence
operations run (create, accept, reject, arrive, start, complete, cancel,
location and availability updates — the unvalidated generic status update
excluded), no accept call by any driver on that ride can ever answer 200:
the ride is removed for all drivers, not returned to a pool.  The generic
status update is the sole exception: it can push the ride back to pending,
after which an accept succeeds (see the counterexample). -/
theorem rejectRide_removes_ride_for_all (db : Db) (rid : Nat) (r : RideRequest)
    (hr : findRide db rid = some r) (hst : r.status = RideStatusPending)
    (hdn : r.driverID = none) :
    rejectRide db UserTypeDriver rid =
      (saveRide db { r with status := RideStatusCancelled }, Resp.ok 200) ∧
    findRide (rejectRide db UserTypeDriver rid).1 rid =
      some { r with status := RideStatusCancelled } ∧
    (findRide (rejectRide db UserTypeDriver rid).1 rid).map RideRequest.driverID =
      some none ∧
    ∀ (dist2 : ℚ → ℚ → ℚ → ℚ → ℚ) (ops : List Op) (d2 : Nat) (ut : String),
      (acceptRide (execFrom dist2 (rejectRide db UserTypeDriver rid).1 ops) d2 ut
          rid).2 ≠ Resp.ok 200 := by
  have hrid : r.id = rid := findRide_id hr
  have hmain : rejectRide db UserTypeDriver rid =
      (saveRide db { r with status := RideStatusCancelled }, Resp.ok 200) := by
    simp [rejectRide, hr, hst]
  have hfind : findRide (rejectRide db UserTypeDriver rid).1 rid =
      some { r with status := RideStatusCancelled } := by
    rw [hmain]
    exact findRide_saveRide_self _ hr hrid
  refine ⟨hmain, hfind, by rw [hfind]; simp [hdn], ?_⟩
  intro dist2 ops d2 ut
  apply acceptRide_resp_not_ok_of_cancelled
  apply execFrom_keeps_cancelled
  rw [hfind]
  rfl

/-- Witness for C10 on `c10Db`: driver 7 — unrelated to the ride — rejects
it; after a further availability update, driver 7's accept attempt cannot
succeed. -/
theorem rejectRide_removes_ride_for_all_witness :
    (acceptRide
        (execFrom distOne (rejectRide c10Db UserTypeDriver 1).1
          [Op.availOp 7 UserTypeDriver true])
        7 UserTypeDriver 1).2 ≠ Resp.ok 200 :=
  (rejectRide_removes_ride_for_all c10Db 1 c3Ride (by decide) (by decide)
      (by decide)).2.2.2
    distOne [Op.availOp 7 UserTypeDriver true] 7 UserTypeDriver

end Mooveit
